import Mathlib

/-!
Shallow embedding of the response-interpretation pipeline of the
Data-Analytics-Agents repository (`src/lib/file-processor.ts`): shallow file
ingestion, directive extraction from generated text, fixture synthesis for
charts and tables, size formatting, and the query fallback path.

Text is modelled as `List Char`.  The JavaScript regular-expression scans
(`text.match(p)` with the global flag, `text.replace(p, "")`, `p.test(text)`)
are modelled by explicit left-to-right matchers: each concrete pattern used by
the source only separates character classes that exclude the following
delimiter, so the greedy backtracking search degenerates to "take the run up to
the first delimiter", which the matchers implement directly.
-/

/-- Whitespace membership as used by JavaScript trimming and the regex
whitespace class, restricted to the core whitespace characters. -/
def isSpace (c : Char) : Bool :=
  c = ' ' || c = '\t' || c = '\n' || c = '\r' || c = '\x0b' || c = '\x0c'

/-- Leading- and trailing-whitespace removal, as JavaScript trim. -/
def trim (l : List Char) : List Char :=
  ((l.dropWhile isSpace).reverse.dropWhile isSpace).reverse

/-- Split the input at the first occurrence of the delimiter `d`, returning
the (possibly empty) run before it and the remainder after it, or `none`
when `d` does not occur.  This is the semantics of a greedy `[^d]*` capture
followed by the literal `d`. -/
def takeUntil (d : Char) : List Char → Option (List Char × List Char)
  | [] => none
  | c :: rest =>
    if c = d then some ([], rest)
    else
      match takeUntil d rest with
      | some (a, b) => some (c :: a, b)
      | none => none

/-- JavaScript `String.prototype.split` with a one-character separator. -/
def splitOnChar (d : Char) : List Char → List (List Char)
  | [] => [[]]
  | c :: rest =>
    if c = d then [] :: splitOnChar d rest
    else
      match splitOnChar d rest with
      | [] => [[c]]
      | a :: as => (c :: a) :: as

/-- Consume an expected literal from the front of the input, returning the
remainder on success. -/
def dropLit : List Char → List Char → Option (List Char)
  | [], l => some l
  | _ :: _, [] => none
  | p :: ps, c :: cs => if c = p then dropLit ps cs else none

/-- The literal opener of a visualization directive. -/
def vizOpen : List Char := '[' :: 'V' :: 'I' :: 'Z' :: ':' :: []

/-- The literal opener of a table directive. -/
def tableOpen : List Char := '[' :: 'T' :: 'A' :: 'B' :: 'L' :: 'E' :: ':' :: []

/-- Match the extraction pattern for visualizations at the
head of the input.  On success, return the matched substring and the rest of
the input after the match. -/
def matchVizAt (l : List Char) : Option (List Char × List Char) :=
  match dropLit vizOpen l with
  | none => none
  | some r0 =>
    match takeUntil ':' r0 with
    | none => none
    | some (f1, r1) =>
      if f1 = [] then none
      else
        match takeUntil ':' r1 with
        | none => none
        | some (f2, r2) =>
          if f2 = [] then none
          else
            match takeUntil ']' r2 with
            | none => none
            | some (f3, r3) =>
              if f3 = [] then none
              else some (vizOpen ++ f1 ++ ':' :: f2 ++ ':' :: f3 ++ [']'], r3)

/-- Match the extraction pattern for tables at the head
of the input. -/
def matchTableAt (l : List Char) : Option (List Char × List Char) :=
  match dropLit tableOpen l with
  | none => none
  | some r0 =>
    match takeUntil ':' r0 with
    | none => none
    | some (f1, r1) =>
      if f1 = [] then none
      else
        match takeUntil ']' r1 with
        | none => none
        | some (f2, r2) =>
          if f2 = [] then none
          else some (tableOpen ++ f1 ++ ':' :: f2 ++ [']'], r2)

/-- Match the broader strip pattern for visualizations
(one or more characters other than a closing bracket between the opener and
the closing bracket) at the head of the input. -/
def matchVizStripAt (l : List Char) : Option (List Char × List Char) :=
  match dropLit vizOpen l with
  | none => none
  | some r0 =>
    match takeUntil ']' r0 with
    | none => none
    | some (f, r) =>
      if f = [] then none else some (vizOpen ++ f ++ [']'], r)

/-- Match the broader strip pattern for tables at the head
of the input. -/
def matchTableStripAt (l : List Char) : Option (List Char × List Char) :=
  match dropLit tableOpen l with
  | none => none
  | some r0 =>
    match takeUntil ']' r0 with
    | none => none
    | some (f, r) =>
      if f = [] then none else some (tableOpen ++ f ++ [']'], r)

/-- Fuel-indexed left-to-right global scan: at each position try the matcher;
on success record the matched substring and continue after it, otherwise
advance one character.  With fuel at least the input length this is the
semantics of a global JavaScript match. -/
def scanAllAux (matcher : List Char → Option (List Char × List Char)) :
    Nat → List Char → List (List Char)
  | 0, _ => []
  | _ + 1, [] => []
  | fuel + 1, c :: rest =>
    match matcher (c :: rest) with
    | some (m, r) => m :: scanAllAux matcher fuel r
    | none => scanAllAux matcher fuel rest

/-- All matches of a pattern in the input, left to right, non-overlapping. -/
def scanAll (matcher : List Char → Option (List Char × List Char))
    (l : List Char) : List (List Char) :=
  scanAllAux matcher l.length l

/-- Fuel-indexed global removal of every match, left to right. -/
def replaceAllAux (matcher : List Char → Option (List Char × List Char)) :
    Nat → List Char → List Char
  | 0, l => l
  | _ + 1, [] => []
  | fuel + 1, c :: rest =>
    match matcher (c :: rest) with
    | some (_, r) => replaceAllAux matcher fuel r
    | none => c :: replaceAllAux matcher fuel rest

/-- JavaScript global `replace` with the empty replacement string. -/
def replaceAll (matcher : List Char → Option (List Char × List Char))
    (l : List Char) : List Char :=
  replaceAllAux matcher l.length l

/-- Whether the matcher succeeds at some position of the input. -/
def hasTagMatch (matcher : List Char → Option (List Char × List Char)) :
    List Char → Bool
  | [] => (matcher []).isSome
  | c :: rest => (matcher (c :: rest)).isSome || hasTagMatch matcher rest

example : matchVizAt "[VIZ:bar:T:D]x".toList =
    some ("[VIZ:bar:T:D]".toList, ['x']) := by decide

example : matchVizAt "[VIZ:a:b]".toList = none := by decide

example : matchVizStripAt "[VIZ:a:b]".toList =
    some ("[VIZ:a:b]".toList, []) := by decide

example : scanAll matchVizAt "[VIZ:x:[VIZ:bar:T:D]".toList =
    ["[VIZ:x:[VIZ:bar:T:D]".toList] := by decide

example : replaceAll matchVizStripAt "[VIZ[VIZ:a]:a]".toList =
    "[VIZ:a]".toList := by decide

example : splitOnChar ':' "x:[VIZ:bar:T:D".toList =
    ["x".toList, "[VIZ".toList, "bar".toList, "T".toList, "D".toList] := by
  decide

/-- File type tags accepted by the processor. -/
inductive FileType where
  | txt
  | log
  | csv
  | xlsx
deriving DecidableEq

/-- Structure summary attached to a processed log file. -/
structure LogStructure where
  hasTimestamps : Bool
  hasLogLevels : Bool
  hasIpAddresses : Bool
  totalLines : Nat
deriving DecidableEq

/-- Structure summary attached to a processed delimited table file. -/
structure CsvStructure where
  headers : Option (List (List Char))
  rows : Int
  columns : Nat
  delimiter : Char
deriving DecidableEq

/-- Kind-specific structure summary of a processed file. -/
inductive FileStructure where
  | log : LogStructure → FileStructure
  | csv : CsvStructure → FileStructure
  | xlsx : List String → String → FileStructure
deriving DecidableEq

/-- Metadata record of a processed file. -/
structure FileMetadata where
  size : Nat
  lines : Option Nat
  columns : Option (List (List Char))
  encoding : Option String
deriving DecidableEq

/-- The ephemeral result of shallow file ingestion. -/
structure ProcessedFileData where
  type : FileType
  content : List Char
  metadata : FileMetadata
  preview : List Char
  struct : Option FileStructure
deriving DecidableEq

/-- Match the log timestamp pattern (four digits, dash, two digits, dash, two
digits, a whitespace character or a literal T, then two digits, colon, two
digits, colon, two digits) at the head of the input. -/
def matchTimestampAt : List Char → Bool
  | y1 :: y2 :: y3 :: y4 :: a :: mo1 :: mo2 :: b :: d1 :: d2 :: sep ::
      h1 :: h2 :: c1 :: mi1 :: mi2 :: c2 :: s1 :: s2 :: _ =>
    y1.isDigit && y2.isDigit && y3.isDigit && y4.isDigit && a = '-' &&
    mo1.isDigit && mo2.isDigit && b = '-' && d1.isDigit && d2.isDigit &&
    (isSpace sep || sep = 'T') && h1.isDigit && h2.isDigit && c1 = ':' &&
    mi1.isDigit && mi2.isDigit && c2 = ':' && s1.isDigit && s2.isDigit
  | _ => false

/-- Whether the timestamp pattern occurs anywhere in the input. -/
def hasTimestamp : List Char → Bool
  | [] => false
  | c :: rest => matchTimestampAt (c :: rest) || hasTimestamp rest

/-- Membership in the regex word-character class. -/
def isWordChar (c : Char) : Bool := c.isAlphanum || c = '_'

/-- The case-insensitive severity keywords of the log-level pattern. -/
def levelKeywords : List (List Char) :=
  ["error".toList, "warn".toList, "info".toList,
   "debug".toList, "trace".toList, "fatal".toList]

/-- Consume a keyword case-insensitively from the front of the input. -/
def matchKeywordAt : List Char → List Char → Option (List Char)
  | [], l => some l
  | _ :: _, [] => none
  | k :: ks, c :: cs => if c.toLower = k then matchKeywordAt ks cs else none

/-- A word-boundary assertion against the following input: satisfied at end of
input or before a non-word character. -/
def afterBoundary : List Char → Bool
  | [] => true
  | c :: _ => !isWordChar c

/-- Match one of the severity keywords followed by a word boundary. -/
def matchLevelAt (l : List Char) : Bool :=
  levelKeywords.any fun kw =>
    match matchKeywordAt kw l with
    | some rest => afterBoundary rest
    | none => false

/-- Match one-to-three digits; the greedy digit run must not be longer. -/
def digitRun13 (l : List Char) : Option (List Char) :=
  let n := (l.takeWhile Char.isDigit).length
  if 1 ≤ n ∧ n ≤ 3 then some (l.drop n) else none

/-- Consume one expected character. -/
def expectChar (c : Char) : List Char → Option (List Char)
  | [] => none
  | x :: rest => if x = c then some rest else none

/-- Match the dotted-quad shape (three digit groups each followed by a dot,
a final digit group, then a word boundary) at the head of the input. -/
def matchIpAt (l : List Char) : Bool :=
  (do
    let r1 ← digitRun13 l
    let r2 ← expectChar '.' r1
    let r3 ← digitRun13 r2
    let r4 ← expectChar '.' r3
    let r5 ← digitRun13 r4
    let r6 ← expectChar '.' r5
    let r7 ← digitRun13 r6
    pure (afterBoundary r7)).getD false

/-- Scan the input for a match that must start at a word boundary, tracking
the previous character. -/
def hasBoundedMatchAux (m : List Char → Bool) : Option Char → List Char → Bool
  | _, [] => false
  | prev, c :: rest =>
    ((match prev with
      | none => true
      | some p => !isWordChar p) && m (c :: rest)) ||
      hasBoundedMatchAux m (some c) rest

/-- Whether a word-boundary-anchored pattern occurs anywhere in the input. -/
def hasBoundedMatch (m : List Char → Bool) (l : List Char) : Bool :=
  hasBoundedMatchAux m none l

/-- Whether the severity-keyword pattern occurs in the input. -/
def hasLevel (l : List Char) : Bool := hasBoundedMatch matchLevelAt l

/-- Whether the dotted-quad pattern occurs in the input. -/
def hasIp (l : List Char) : Bool := hasBoundedMatch matchIpAt l

/-- Join a list of lines with newline separators. -/
def joinLines (ls : List (List Char)) : List Char := List.intercalate ['\n'] ls

/-- Whether a line is kept by the blank-line filter: its trimmed form is a
non-empty (truthy) string. -/
def nonBlank (l : List Char) : Bool := !(trim l).isEmpty

/-- Split file content into lines at newline characters. -/
def splitLines (content : List Char) : List (List Char) := splitOnChar '\n' content

/-- Shallow processing of a plain text file. -/
def processTextFile (content : List Char) (size : Nat) : ProcessedFileData :=
  let lines := splitLines content
  { type := .txt
    content := content
    metadata :=
      { size := size, lines := some lines.length, columns := none,
        encoding := some "utf-8" }
    preview := joinLines (lines.take 10)
    struct := none }

/-- Shallow processing of a log file: blank lines are discarded and the three
independent pattern signals are computed over the whole content. -/
def processLogFile (content : List Char) (size : Nat) : ProcessedFileData :=
  let lines := (splitLines content).filter nonBlank
  { type := .log
    content := content
    metadata :=
      { size := size, lines := some lines.length, columns := none,
        encoding := some "utf-8" }
    preview := joinLines (lines.take 10)
    struct := some (.log
      { hasTimestamps := hasTimestamp content
        hasLogLevels := hasLevel content
        hasIpAddresses := hasIp content
        totalLines := lines.length }) }

/-- Header row of a delimited file: the first retained line split on commas,
each cell trimmed and with every double-quote character removed. -/
def csvHeaders : List (List Char) → Option (List (List Char))
  | [] => none
  | l0 :: _ => some ((splitOnChar ',' l0).map fun h => (trim h).filter (· ≠ '"'))

/-- Shallow processing of a comma-delimited table file. -/
def processCsvFile (content : List Char) (size : Nat) : ProcessedFileData :=
  let lines := (splitLines content).filter nonBlank
  let headers := csvHeaders lines
  { type := .csv
    content := content
    metadata :=
      { size := size, lines := some lines.length, columns := headers,
        encoding := some "utf-8" }
    preview := joinLines (lines.take 6)
    struct := some (.csv
      { headers := headers
        rows := (lines.length : Int) - 1
        columns := match headers with | some hs => hs.length | none => 0
        delimiter := ',' }) }

/-- Placeholder processing of a spreadsheet file. -/
def processExcelFile (size : Nat) : ProcessedFileData :=
  { type := .xlsx
    content := "Excel file content (binary)".toList
    metadata :=
      { size := size, lines := none, columns := none, encoding := some "binary" }
    preview := ("Excel file processing requires additional libraries. " ++
      "File uploaded successfully.").toList
    struct := some (.xlsx ["Sheet1"] "xlsx") }

/-- Dispatch on the declared type tag; an unknown tag fails. -/
def processFile (fileType : String) (content : List Char) (size : Nat) :
    Except String ProcessedFileData :=
  match fileType with
  | "txt" => .ok (processTextFile content size)
  | "log" => .ok (processLogFile content size)
  | "csv" => .ok (processCsvFile content size)
  | "xlsx" => .ok (processExcelFile size)
  | _ => .error ("Unsupported file type: " ++ fileType)

/-- The unit names used by the size formatter. -/
def sizes : List String := ["Bytes", "KB", "MB", "GB"]

/-- Fuel-indexed base-1024 logarithm floor. -/
def logFloor1024Aux : Nat → Nat → Nat
  | 0, _ => 0
  | fuel + 1, m => if m < 1024 then 0 else logFloor1024Aux fuel (m / 1024) + 1

/-- The floor of the base-1024 logarithm of a positive byte count. -/
def logFloor1024 (bytes : Nat) : Nat := logFloor1024Aux bytes bytes

/-- One hundred times the scaled size value, rounded half-up to an integer:
the two-decimal rounding of the scaled value. -/
def value100 (bytes i : Nat) : Nat :=
  (200 * bytes + 1024 ^ i) / (2 * 1024 ^ i)

/-- Render a hundredth-valued number with up to two decimals and trailing
zeros dropped, as number-to-string conversion after parseFloat of toFixed. -/
def renderValue (v : Nat) : String :=
  let ip := v / 100
  let fp := v % 100
  if fp = 0 then toString ip
  else if fp % 10 = 0 then toString ip ++ "." ++ toString (fp / 10)
  else if fp < 10 then toString ip ++ ".0" ++ toString fp
  else toString ip ++ "." ++ toString fp

/-- Human-readable size formatting. -/
def formatFileSize (bytes : Nat) : String :=
  if bytes = 0 then "0 Bytes"
  else
    renderValue (value100 bytes (logFloor1024 bytes)) ++ " " ++
      sizes.getD (logFloor1024 bytes) "undefined"

example : formatFileSize 0 = "0 Bytes" := by decide
example : formatFileSize 1024 = "1 KB" := by decide
example : formatFileSize 1536 = "1.5 KB" := by decide
example : formatFileSize (1024 ^ 4) = "1 undefined" := by decide
example : hasTimestamp "2024-01-15".toList = false := by decide
example : hasTimestamp "x 2024-01-15 10:30:00".toList = true := by decide
example : hasLevel "a ERROR b".toList = true := by decide
example : hasLevel "INFORMATION".toList = false := by decide
example : hasIp "192.168.1.1 failed".toList = true := by decide
example : hasIp "1234.5.6.7".toList = false := by decide

/-- One named numeric series of a chart payload. -/
structure Dataset where
  label : String
  data : List Nat
deriving DecidableEq

/-- A chart-ready payload: category labels and datasets. -/
structure ChartData where
  labels : List String
  datasets : List Dataset
deriving DecidableEq

/-- Rendering hints attached to a visualization. -/
structure VizConfig where
  responsive : Bool
  legendPosition : String
  titleDisplay : Bool
  titleText : String
  yBeginAtZero : Option Bool
deriving DecidableEq

/-- A visualization specification extracted from generated text. -/
structure VisualizationData where
  type : String
  chartType : List Char
  title : List Char
  description : List Char
  data : ChartData
  config : VizConfig
deriving DecidableEq

/-- A table specification extracted from generated text. -/
structure TableData where
  headers : List String
  rows : List (List String)
  title : List Char
  description : List Char
deriving DecidableEq

/-- The structured response of one chat turn. -/
structure AgentResponse where
  content : List Char
  visualizations : Option (List VisualizationData)
  tables : Option (List TableData)
  confidence : ℚ
  sources : List FileType
deriving DecidableEq

/-- Fixture series for a table file and a line chart. -/
def csvLineData : ChartData :=
  { labels := ["Jan", "Feb", "Mar", "Apr", "May", "Jun"]
    datasets :=
      [{ label := "Sales", data := [12000, 19000, 15000, 25000, 22000, 30000] },
       { label := "Profit", data := [3000, 4500, 3800, 6200, 5500, 7500] }] }

/-- Fixture series for a table file and a pie chart. -/
def csvPieData : ChartData :=
  { labels := ["Product A", "Product B", "Product C", "Product D"]
    datasets := [{ label := "Revenue Share", data := [35, 25, 20, 20] }] }

/-- Fixture series for a table file and an area chart. -/
def csvAreaData : ChartData :=
  { labels := ["Q1", "Q2", "Q3", "Q4"]
    datasets :=
      [{ label := "Revenue", data := [45000, 52000, 48000, 61000] },
       { label := "Costs", data := [32000, 38000, 35000, 42000] }] }

/-- Fixture series for a table file and the bar/default branch. -/
def csvBarData : ChartData :=
  { labels := ["North", "South", "East", "West", "Central"]
    datasets := [{ label := "Sales", data := [23000, 18000, 31000, 15000, 27000] }] }

/-- Chart fixture synthesis for a table file, keyed by the chart kind. -/
def generateCSVVisualizationData (chartType : List Char) : ChartData :=
  if chartType = "line".toList then csvLineData
  else if chartType = "pie".toList then csvPieData
  else if chartType = "area".toList then csvAreaData
  else csvBarData

/-- Chart fixture synthesis for a log file, keyed by the chart kind. -/
def generateLogVisualizationData (chartType : List Char) : ChartData :=
  if chartType = "pie".toList then
    { labels := ["ERROR", "WARN", "INFO", "DEBUG"]
      datasets := [{ label := "Log Levels", data := [8, 15, 62, 15] }] }
  else if chartType = "line".toList then
    { labels := ["00:00", "04:00", "08:00", "12:00", "16:00", "20:00"]
      datasets :=
        [{ label := "Error Count", data := [2, 1, 8, 12, 15, 6] },
         { label := "Warning Count", data := [5, 3, 12, 18, 22, 10] }] }
  else
    { labels := ["Authentication", "Database", "API", "Network", "System"]
      datasets := [{ label := "Error Count", data := [12, 8, 15, 6, 9] }] }

/-- The canned default chart fixture used when no file context applies. -/
def generateDefaultVisualizationData (chartType : List Char) : ChartData :=
  { labels := ["Category A", "Category B", "Category C", "Category D"]
    datasets := [{ label := "Sample Data", data := [30, 45, 25, 35] }] }

/-- Chart fixture synthesis keyed by file kind and chart kind. -/
def generateVisualizationData (chartType : List Char)
    (processedData : Option ProcessedFileData) : ChartData :=
  match processedData with
  | none => generateDefaultVisualizationData chartType
  | some p =>
    match p.type with
    | .csv => generateCSVVisualizationData chartType
    | .log => generateLogVisualizationData chartType
    | _ => generateDefaultVisualizationData chartType

/-- Rendering hints keyed by the chart kind: cartesian kinds add the
begin-at-zero vertical-axis hint. -/
def generateVisualizationConfig (chartType : List Char) : VizConfig :=
  if chartType = "line".toList ∨ chartType = "bar".toList ∨
      chartType = "area".toList then
    { responsive := true, legendPosition := "top", titleDisplay := true,
      titleText := "Data Visualization", yBeginAtZero := some true }
  else
    { responsive := true, legendPosition := "top", titleDisplay := true,
      titleText := "Data Visualization", yBeginAtZero := none }

/-- Table fixture synthesis keyed by file kind: headers and rows. -/
def generateTableData (processedData : Option ProcessedFileData) :
    List String × List (List String) :=
  match processedData with
  | none =>
    (["Item", "Value", "Status"],
     [["Sample Item 1", "100", "Active"],
      ["Sample Item 2", "250", "Pending"],
      ["Sample Item 3", "75", "Complete"]])
  | some p =>
    match p.type with
    | .csv =>
      (["Product", "Sales", "Growth", "Region"],
       [["Product A", "$45,000", "+12%", "North"],
        ["Product B", "$32,000", "+8%", "South"],
        ["Product C", "$58,000", "+15%", "East"],
        ["Product D", "$41,000", "+5%", "West"],
        ["Product E", "$37,000", "+10%", "Central"]])
    | .log =>
      (["Timestamp", "Level", "Component", "Message"],
       [["2024-01-15 10:30:15", "ERROR", "Database", "Connection timeout"],
        ["2024-01-15 10:30:16", "WARN", "API", "Rate limit approaching"],
        ["2024-01-15 10:30:17", "INFO", "Auth", "User login successful"],
        ["2024-01-15 10:30:18", "DEBUG", "Cache", "Cache miss for key: user_123"]])
    | _ =>
      (["Key", "Value", "Type"],
       [["Total Records", "1,234", "Count"],
        ["Average Size", "2.5 MB", "Size"],
        ["Processing Time", "0.8s", "Duration"]])

/-- Build a visualization from one extraction match: the matched substring
with opener and closing bracket cut off is split on colons; fewer than three
parts produce nothing, and parts beyond the third are ignored. -/
def vizOfMatch (processedData : Option ProcessedFileData) (m : List Char) :
    Option VisualizationData :=
  let parts := splitOnChar ':' ((m.drop 5).dropLast)
  if parts.length ≥ 3 then
    some
      { type := "chart"
        chartType := parts.getD 0 []
        title := parts.getD 1 []
        description := parts.getD 2 []
        data := generateVisualizationData (parts.getD 0 []) processedData
        config := generateVisualizationConfig (parts.getD 0 []) }
  else none

/-- Build a table from one extraction match: the matched substring with opener
and closing bracket cut off is split on colons; fewer than two parts produce
nothing; headers and rows come from the fixture synthesis. -/
def tableOfMatch (processedData : Option ProcessedFileData) (m : List Char) :
    Option TableData :=
  let parts := splitOnChar ':' ((m.drop 7).dropLast)
  if parts.length ≥ 2 then
    some
      { title := parts.getD 0 []
        description := parts.getD 1 []
        headers := (generateTableData processedData).1
        rows := (generateTableData processedData).2 }
  else none

/-- The strip-and-trim step applied to the generated text: remove every
substring matching the broad visualization strip pattern, then every substring
matching the broad table strip pattern, then trim. -/
def cleanResponseText (text : List Char) : List Char :=
  trim (replaceAll matchTableStripAt (replaceAll matchVizStripAt text))

/-- The response-interpretation pipeline: extract visualization and table
directives from the generated text, synthesize their payloads, and strip all
substrings matching the broader strip patterns from the displayed text. -/
def parseAIResponse (text : List Char)
    (processedData : Option ProcessedFileData) : AgentResponse :=
  let vizMatches := scanAll matchVizAt text
  let visualizations := vizMatches.filterMap (vizOfMatch processedData)
  let tableMatches := scanAll matchTableAt text
  let tables := tableMatches.filterMap (tableOfMatch processedData)
  { content := cleanResponseText text
    visualizations := some visualizations
    tables := some tables
    confidence := (0.85 : ℚ)
    sources := match processedData with | some p => [p.type] | none => [] }

/-- The fixed fallback response returned when any step of query processing
throws: apologetic text, zero confidence, no visualization, table or source
fields. -/
def fallbackResponse : AgentResponse :=
  { content := ("I apologize, but I encountered an error while processing " ++
      "your request. Please try again.").toList
    visualizations := none
    tables := none
    confidence := 0
    sources := [] }

/-- One query-processing turn.  The optional file is given as its stored type
tag, content and size; the outcome of the external generation call is a
parameter (generated text, or an error when the call throws).  Every failure
inside the guarded region yields the fixed fallback response. -/
def processQuery (query : List Char)
    (file : Option (String × List Char × Nat))
    (history : List (Bool × List Char))
    (gen : Except Unit (List Char)) : AgentResponse :=
  let run : Except String AgentResponse := do
    let pd ← match file with
      | none => pure (none : Option ProcessedFileData)
      | some (ft, content, size) => do
          let p ← processFile ft content size
          pure (some p)
    let text ← gen.mapError fun _ => "generation failed"
    pure (parseAIResponse text pd)
  match run with
  | .ok r => r
  | .error _ => fallbackResponse

example :
    (parseAIResponse "Here: [VIZ:bar:Sample:Demo]".toList none).content =
      "Here:".toList := by decide

example :
    ((parseAIResponse "Here: [VIZ:bar:Sample:Demo]".toList none
      ).visualizations.getD []).map (fun v => (v.chartType, v.title)) =
      [("bar".toList, "Sample".toList)] := by decide

example :
    (parseAIResponse "[VIZ:a:b]".toList none).content = [] := by decide

/-- The log structure summary of a processed file, when it carries one. -/
def logSummary (p : ProcessedFileData) : Option LogStructure :=
  match p.struct with
  | some (.log s) => some s
  | _ => none

/-- The table structure summary of a processed file, when it carries one. -/
def csvSummary (p : ProcessedFileData) : Option CsvStructure :=
  match p.struct with
  | some (.csv s) => some s
  | _ => none

/-- A well-formed visualization directive tag. -/
def vizTag (k T D : List Char) : List Char :=
  vizOpen ++ k ++ ':' :: T ++ ':' :: D ++ [']']

theorem takeUntil_eq_some {d : Char} :
    ∀ {l a b : List Char}, takeUntil d l = some (a, b) →
      l = a ++ d :: b ∧ d ∉ a := by
  intro l
  induction l with
  | nil => intro a b h; simp [takeUntil] at h
  | cons c rest ih =>
    intro a b h
    by_cases hc : c = d
    · simp [takeUntil, hc] at h
      obtain ⟨ha, hb⟩ := h
      subst ha; subst hb; subst hc
      simp
    · simp only [takeUntil, if_neg hc] at h
      cases hr : takeUntil d rest with
      | none => rw [hr] at h; simp at h
      | some ab =>
        obtain ⟨a', b'⟩ := ab
        rw [hr] at h
        simp at h
        obtain ⟨ha, hb⟩ := h
        obtain ⟨h1, h2⟩ := ih hr
        subst ha; subst hb
        constructor
        · rw [h1]; simp
        · simp only [List.mem_cons, not_or]
          exact ⟨fun hd => hc hd.symm, h2⟩

theorem takeUntil_append {d : Char} :
    ∀ {a : List Char} (b : List Char), d ∉ a →
      takeUntil d (a ++ d :: b) = some (a, b) := by
  intro a
  induction a with
  | nil => intro b _; simp [takeUntil]
  | cons c rest ih =>
    intro b h
    simp only [List.mem_cons, not_or] at h
    obtain ⟨h1, h2⟩ := h
    simp only [List.cons_append, takeUntil]
    rw [show rest.append (d :: b) = rest ++ d :: b from rfl, ih b h2,
      if_neg (fun hcd => h1 hcd.symm)]

theorem takeUntil_eq_none {d : Char} :
    ∀ {l : List Char}, d ∉ l → takeUntil d l = none := by
  intro l
  induction l with
  | nil => intro _; rfl
  | cons c rest ih =>
    intro h
    simp only [List.mem_cons, not_or] at h
    obtain ⟨h1, h2⟩ := h
    simp only [takeUntil, if_neg (by simpa using Ne.symm h1)]
    rw [ih h2]

theorem dropLit_eq_some :
    ∀ {p l r : List Char}, dropLit p l = some r → l = p ++ r := by
  intro p
  induction p with
  | nil => intro l r h; simp [dropLit] at h; simp [h]
  | cons c ps ih =>
    intro l r h
    cases l with
    | nil => simp [dropLit] at h
    | cons x xs =>
      simp only [dropLit] at h
      by_cases hx : x = c
      · rw [if_pos hx] at h
        subst hx
        simp [ih h]
      · rw [if_neg hx] at h; simp at h

theorem dropLit_append : ∀ (p r : List Char), dropLit p (p ++ r) = some r := by
  intro p
  induction p with
  | nil => intro r; rfl
  | cons c ps ih => intro r; simp [dropLit, ih]

theorem splitOnChar_not_mem {d : Char} :
    ∀ {l : List Char}, d ∉ l → splitOnChar d l = [l] := by
  intro l
  induction l with
  | nil => intro _; rfl
  | cons c rest ih =>
    intro h
    simp only [List.mem_cons, not_or] at h
    obtain ⟨h1, h2⟩ := h
    simp only [splitOnChar, if_neg (by simpa using Ne.symm h1)]
    rw [ih h2]

theorem splitOnChar_append {d : Char} :
    ∀ {a : List Char} (b : List Char), d ∉ a →
      splitOnChar d (a ++ d :: b) = a :: splitOnChar d b := by
  intro a
  induction a with
  | nil =>
    intro b _
    simp [splitOnChar]
  | cons c rest ih =>
    intro b h
    simp only [List.mem_cons, not_or] at h
    obtain ⟨h1, h2⟩ := h
    simp only [List.cons_append, splitOnChar]
    rw [show rest.append (d :: b) = rest ++ d :: b from rfl, ih b h2,
      if_neg (fun hcd => h1 hcd.symm)]

theorem matchVizAt_nil : matchVizAt [] = none := rfl

theorem matchTableAt_nil : matchTableAt [] = none := rfl

theorem matchVizStripAt_nil : matchVizStripAt [] = none := rfl

theorem matchTableStripAt_nil : matchTableStripAt [] = none := rfl

theorem matchVizAt_head_ne {c : Char} {l : List Char} (h : c ≠ '[') :
    matchVizAt (c :: l) = none := by
  simp [matchVizAt, vizOpen, dropLit, if_neg h]

theorem matchTableAt_head_ne {c : Char} {l : List Char} (h : c ≠ '[') :
    matchTableAt (c :: l) = none := by
  simp [matchTableAt, tableOpen, dropLit, if_neg h]

theorem matchVizStripAt_head_ne {c : Char} {l : List Char} (h : c ≠ '[') :
    matchVizStripAt (c :: l) = none := by
  simp [matchVizStripAt, vizOpen, dropLit, if_neg h]

theorem matchTableStripAt_head_ne {c : Char} {l : List Char} (h : c ≠ '[') :
    matchTableStripAt (c :: l) = none := by
  simp [matchTableStripAt, tableOpen, dropLit, if_neg h]

theorem takeUntil_no_mem {d e : Char} {l a b : List Char}
    (h : takeUntil d l = some (a, b)) (he : e ∉ l) : e ∉ b := by
  obtain ⟨h1, _⟩ := takeUntil_eq_some h
  intro hm
  exact he (h1 ▸ List.mem_append_right a (List.mem_cons_of_mem d hm))

theorem dropLit_no_mem {e : Char} {p l r : List Char}
    (h : dropLit p l = some r) (he : e ∉ l) : e ∉ r := by
  have h1 := dropLit_eq_some h
  intro hm
  exact he (h1 ▸ List.mem_append_right p hm)

theorem matchVizAt_eq_none_of_no_rb {l : List Char} (h : ']' ∉ l) :
    matchVizAt l = none := by
  cases hd : dropLit vizOpen l with
  | none => simp [matchVizAt, hd]
  | some r0 =>
    have hr0 := dropLit_no_mem hd h
    cases h1 : takeUntil ':' r0 with
    | none => simp [matchVizAt, hd, h1]
    | some p1 =>
      obtain ⟨f1, r1⟩ := p1
      have hr1 := takeUntil_no_mem h1 hr0
      cases h2 : takeUntil ':' r1 with
      | none => simp [matchVizAt, hd, h1, h2]
      | some p2 =>
        obtain ⟨f2, r2⟩ := p2
        have hr2 := takeUntil_no_mem h2 hr1
        simp [matchVizAt, hd, h1, h2, takeUntil_eq_none hr2]

theorem matchTableAt_eq_none_of_no_rb {l : List Char} (h : ']' ∉ l) :
    matchTableAt l = none := by
  cases hd : dropLit tableOpen l with
  | none => simp [matchTableAt, hd]
  | some r0 =>
    have hr0 := dropLit_no_mem hd h
    cases h1 : takeUntil ':' r0 with
    | none => simp [matchTableAt, hd, h1]
    | some p1 =>
      obtain ⟨f1, r1⟩ := p1
      have hr1 := takeUntil_no_mem h1 hr0
      simp [matchTableAt, hd, h1, takeUntil_eq_none hr1]

theorem matchVizStripAt_eq_none_of_no_rb {l : List Char} (h : ']' ∉ l) :
    matchVizStripAt l = none := by
  cases hd : dropLit vizOpen l with
  | none => simp [matchVizStripAt, hd]
  | some r0 =>
    have hr0 := dropLit_no_mem hd h
    simp [matchVizStripAt, hd, takeUntil_eq_none hr0]

theorem matchTableStripAt_eq_none_of_no_rb {l : List Char} (h : ']' ∉ l) :
    matchTableStripAt l = none := by
  cases hd : dropLit tableOpen l with
  | none => simp [matchTableStripAt, hd]
  | some r0 =>
    have hr0 := dropLit_no_mem hd h
    simp [matchTableStripAt, hd, takeUntil_eq_none hr0]

theorem hasTagMatch_eq_false_of_anchor
    (matcher : List Char → Option (List Char × List Char))
    (hnil : matcher [] = none)
    (hne : ∀ c l, c ≠ '[' → matcher (c :: l) = none) :
    ∀ {l : List Char}, (∀ c ∈ l, c ≠ '[') → hasTagMatch matcher l = false := by
  intro l
  induction l with
  | nil => intro _; simp [hasTagMatch, hnil]
  | cons c rest ih =>
    intro h
    have hc : c ≠ '[' := h c (List.mem_cons_self c rest)
    simp [hasTagMatch, hne c rest hc,
      ih fun x hx => h x (List.mem_cons_of_mem c hx)]

theorem hasTagMatch_eq_false_of_no_rb
    (matcher : List Char → Option (List Char × List Char))
    (hno : ∀ {l : List Char}, ']' ∉ l → matcher l = none) :
    ∀ {l : List Char}, ']' ∉ l → hasTagMatch matcher l = false := by
  intro l
  induction l with
  | nil => intro h; simp [hasTagMatch, hno h]
  | cons c rest ih =>
    intro h
    have h2 : ']' ∉ rest := fun hm => h (List.mem_cons_of_mem c hm)
    simp [hasTagMatch, hno h, ih h2]

theorem replaceAllAux_of_no_match
    (matcher : List Char → Option (List Char × List Char)) :
    ∀ (l : List Char) (fuel : Nat), hasTagMatch matcher l = false →
      replaceAllAux matcher fuel l = l := by
  intro l
  induction l with
  | nil => intro fuel _; cases fuel <;> rfl
  | cons c rest ih =>
    intro fuel h
    simp only [hasTagMatch, Bool.or_eq_false_iff] at h
    obtain ⟨h1, h2⟩ := h
    cases fuel with
    | zero => rfl
    | succ n =>
      rw [replaceAllAux]
      cases hm : matcher (c :: rest) with
      | none => rw [ih n h2]
      | some p => rw [hm] at h1; simp at h1

theorem scanAllAux_of_no_match
    (matcher : List Char → Option (List Char × List Char)) :
    ∀ (l : List Char) (fuel : Nat), hasTagMatch matcher l = false →
      scanAllAux matcher fuel l = [] := by
  intro l
  induction l with
  | nil => intro fuel _; cases fuel <;> rfl
  | cons c rest ih =>
    intro fuel h
    simp only [hasTagMatch, Bool.or_eq_false_iff] at h
    obtain ⟨h1, h2⟩ := h
    cases fuel with
    | zero => rfl
    | succ n =>
      rw [scanAllAux]
      cases hm : matcher (c :: rest) with
      | none => rw [ih n h2]
      | some p => rw [hm] at h1; simp at h1

theorem replaceAllAux_clean_append
    (matcher : List Char → Option (List Char × List Char))
    (hne : ∀ c l, c ≠ '[' → matcher (c :: l) = none) :
    ∀ (p rest : List Char) (fuel : Nat), (∀ c ∈ p, c ≠ '[') →
      replaceAllAux matcher fuel (p ++ rest) =
        p ++ replaceAllAux matcher (fuel - p.length) rest := by
  intro p
  induction p with
  | nil => intro rest fuel _; simp
  | cons c p' ih =>
    intro rest fuel h
    have hc : c ≠ '[' := h c (List.mem_cons_self c p')
    cases fuel with
    | zero =>
      simp only [Nat.zero_sub, replaceAllAux]
    | succ n =>
      rw [List.cons_append, replaceAllAux, hne c (p' ++ rest) hc]
      rw [ih rest n fun x hx => h x (List.mem_cons_of_mem c hx)]
      simp [Nat.succ_sub_succ]

theorem scanAllAux_clean_append
    (matcher : List Char → Option (List Char × List Char))
    (hne : ∀ c l, c ≠ '[' → matcher (c :: l) = none) :
    ∀ (p rest : List Char) (fuel : Nat), (∀ c ∈ p, c ≠ '[') →
      scanAllAux matcher fuel (p ++ rest) =
        scanAllAux matcher (fuel - p.length) rest := by
  intro p
  induction p with
  | nil => intro rest fuel _; simp
  | cons c p' ih =>
    intro rest fuel h
    have hc : c ≠ '[' := h c (List.mem_cons_self c p')
    cases fuel with
    | zero =>
      simp only [Nat.zero_sub, scanAllAux]
    | succ n =>
      rw [List.cons_append, scanAllAux, hne c (p' ++ rest) hc]
      rw [ih rest n fun x hx => h x (List.mem_cons_of_mem c hx)]
      simp [Nat.succ_sub_succ]

theorem replaceAllAux_cons_match
    (matcher : List Char → Option (List Char × List Char))
    {l m r : List Char} (fuel : Nat) (hl : l ≠ [])
    (hm : matcher l = some (m, r)) :
    replaceAllAux matcher (fuel + 1) l = replaceAllAux matcher fuel r := by
  cases l with
  | nil => exact absurd rfl hl
  | cons c rest => rw [replaceAllAux, hm]

theorem scanAllAux_cons_match
    (matcher : List Char → Option (List Char × List Char))
    {l m r : List Char} (fuel : Nat) (hl : l ≠ [])
    (hm : matcher l = some (m, r)) :
    scanAllAux matcher (fuel + 1) l = m :: scanAllAux matcher fuel r := by
  cases l with
  | nil => exact absurd rfl hl
  | cons c rest => rw [scanAllAux, hm]

theorem dropWhile_head_not (p : Char → Bool) :
    ∀ {l : List Char} {c : Char}, (l.dropWhile p).head? = some c →
      p c = false := by
  intro l
  induction l with
  | nil => intro c h; simp at h
  | cons a rest ih =>
    intro c h
    cases ha : p a with
    | true => rw [List.dropWhile_cons, if_pos ha] at h; exact ih h
    | false =>
      rw [List.dropWhile_cons, if_neg (by simp [ha])] at h
      simp at h
      rw [← h]
      exact ha

theorem dropWhile_eq_self (p : Char → Bool) {l : List Char}
    (h : ∀ c, l.head? = some c → p c = false) : l.dropWhile p = l := by
  cases l with
  | nil => rfl
  | cons a rest => simp [List.dropWhile_cons, h a rfl]

theorem trim_idem (l : List Char) : trim (trim l) = trim l := by
  have hu : ∀ c, (l.dropWhile isSpace).head? = some c → isSpace c = false :=
    fun c hc => dropWhile_head_not isSpace hc
  have hvlast : ∀ c,
      ((l.dropWhile isSpace).reverse.dropWhile isSpace).getLast? = some c →
        isSpace c = false := by
    intro c hc
    have hsplit :
        (l.dropWhile isSpace).reverse.takeWhile isSpace ++
          (l.dropWhile isSpace).reverse.dropWhile isSpace =
          (l.dropWhile isSpace).reverse :=
      List.takeWhile_append_dropWhile isSpace (l.dropWhile isSpace).reverse
    have h2 : (l.dropWhile isSpace).reverse.getLast? = some c := by
      rw [← hsplit, List.getLast?_append, hc]
      rfl
    have h3 : (l.dropWhile isSpace).head? = some c := by
      have := List.head?_reverse (l.dropWhile isSpace).reverse
      rw [List.reverse_reverse] at this
      rw [← this] at h2
      exact h2
    exact hu c h3
  have hA : (trim l).dropWhile isSpace = trim l := by
    apply dropWhile_eq_self
    intro c hc
    rw [show trim l =
      ((l.dropWhile isSpace).reverse.dropWhile isSpace).reverse from rfl,
      List.head?_reverse] at hc
    exact hvlast c hc
  have hB : (trim l).reverse.dropWhile isSpace = (trim l).reverse := by
    apply dropWhile_eq_self
    intro c hc
    have hrev : (trim l).reverse =
        (l.dropWhile isSpace).reverse.dropWhile isSpace := by
      rw [show trim l =
        ((l.dropWhile isSpace).reverse.dropWhile isSpace).reverse from rfl,
        List.reverse_reverse]
    rw [hrev] at hc
    exact dropWhile_head_not isSpace hc
  calc trim (trim l)
      = (((trim l).dropWhile isSpace).reverse.dropWhile isSpace).reverse := rfl
    _ = ((trim l).reverse.dropWhile isSpace).reverse := by rw [hA]
    _ = (trim l).reverse.reverse := by rw [hB]
    _ = trim l := List.reverse_reverse _

theorem mem_of_mem_trim {c : Char} {l : List Char} (h : c ∈ trim l) :
    c ∈ l := by
  unfold trim at h
  rw [List.mem_reverse] at h
  have h2 := (List.dropWhile_sublist isSpace).subset h
  rw [List.mem_reverse] at h2
  exact (List.dropWhile_sublist isSpace).subset h2

theorem matchVizAt_tag (k T D s : List Char)
    (hk1 : k ≠ []) (hk2 : ':' ∉ k)
    (hT1 : T ≠ []) (hT2 : ':' ∉ T)
    (hD1 : D ≠ []) (hD2 : ']' ∉ D) :
    matchVizAt (vizTag k T D ++ s) = some (vizTag k T D, s) := by
  have h0 : vizTag k T D ++ s =
      vizOpen ++ (k ++ ':' :: (T ++ ':' :: (D ++ ']' :: s))) := by
    simp [vizTag, List.append_assoc]
  have e1 : takeUntil ':' (k ++ ':' :: (T ++ ':' :: (D ++ ']' :: s))) =
      some (k, T ++ ':' :: (D ++ ']' :: s)) := takeUntil_append _ hk2
  have e2 : takeUntil ':' (T ++ ':' :: (D ++ ']' :: s)) =
      some (T, D ++ ']' :: s) := takeUntil_append _ hT2
  have e3 : takeUntil ']' (D ++ ']' :: s) = some (D, s) :=
    takeUntil_append _ hD2
  rw [h0]
  simp [matchVizAt, dropLit_append, e1, e2, e3, hk1, hT1, hD1, vizTag,
    List.append_assoc]

theorem matchVizStripAt_tag (k T D s : List Char)
    (hk3 : ']' ∉ k) (hT3 : ']' ∉ T) (hD3 : ']' ∉ D) :
    matchVizStripAt (vizTag k T D ++ s) = some (vizTag k T D, s) := by
  have h0 : vizTag k T D ++ s =
      vizOpen ++ ((k ++ ':' :: (T ++ ':' :: D)) ++ ']' :: s) := by
    simp [vizTag, List.append_assoc]
  have hmem : ']' ∉ k ++ ':' :: (T ++ ':' :: D) := by
    simp only [List.mem_append, List.mem_cons, not_or]
    exact ⟨hk3, by decide, hT3, by decide, hD3⟩
  have e : takeUntil ']' ((k ++ ':' :: (T ++ ':' :: D)) ++ ']' :: s) =
      some (k ++ ':' :: (T ++ ':' :: D), s) := takeUntil_append _ hmem
  rw [h0]
  simp only [matchVizStripAt, dropLit_append, e]
  simp [vizTag, List.append_assoc]

theorem vizOfMatch_tag (pd : Option ProcessedFileData) (k T D : List Char)
    (hk2 : ':' ∉ k) (hT2 : ':' ∉ T) (hD2 : ':' ∉ D) :
    vizOfMatch pd (vizTag k T D) =
      some { type := "chart", chartType := k, title := T, description := D,
             data := generateVisualizationData k pd,
             config := generateVisualizationConfig k } := by
  have hdl : ((vizTag k T D).drop 5).dropLast = k ++ ':' :: (T ++ ':' :: D) := by
    show (k ++ ':' :: T ++ ':' :: D ++ [']']).dropLast = _
    rw [show k ++ ':' :: T ++ ':' :: D ++ [']'] =
      (k ++ ':' :: (T ++ ':' :: D)) ++ [']'] from by simp [List.append_assoc]]
    exact List.dropLast_concat
  have hsplit : splitOnChar ':' (k ++ ':' :: (T ++ ':' :: D)) = [k, T, D] := by
    rw [splitOnChar_append _ hk2, splitOnChar_append _ hT2,
      splitOnChar_not_mem hD2]
  simp only [vizOfMatch, hdl, hsplit]
  simp

theorem scanAll_viz_single (p s k T D : List Char)
    (hp : ∀ c ∈ p, c ≠ '[') (hs : ∀ c ∈ s, c ≠ '[')
    (hk1 : k ≠ []) (hk2 : ':' ∉ k)
    (hT1 : T ≠ []) (hT2 : ':' ∉ T)
    (hD1 : D ≠ []) (hD2 : ']' ∉ D) :
    scanAll matchVizAt (p ++ vizTag k T D ++ s) = [vizTag k T D] := by
  rw [scanAll, List.append_assoc p (vizTag k T D) s,
    scanAllAux_clean_append matchVizAt (fun c l hc => matchVizAt_head_ne hc)
      p (vizTag k T D ++ s) _ hp]
  have hlen : (p ++ (vizTag k T D ++ s)).length - p.length =
      (vizTag k T D ++ s).length := by simp
  rw [hlen]
  have hne : vizTag k T D ++ s ≠ [] := by simp [vizTag, vizOpen]
  obtain ⟨n, hn⟩ : ∃ n, (vizTag k T D ++ s).length = n + 1 :=
    ⟨(vizTag k T D ++ s).length - 1,
      (Nat.succ_pred_eq_of_pos (List.length_pos.mpr hne)).symm⟩
  rw [hn, scanAllAux_cons_match matchVizAt n hne
    (matchVizAt_tag k T D s hk1 hk2 hT1 hT2 hD1 hD2)]
  rw [scanAllAux_of_no_match matchVizAt s n
    (hasTagMatch_eq_false_of_anchor matchVizAt matchVizAt_nil
      (fun c l hc => matchVizAt_head_ne hc) hs)]

theorem replaceAll_vizStrip_single (p s k T D : List Char)
    (hp : ∀ c ∈ p, c ≠ '[') (hs : ∀ c ∈ s, c ≠ '[')
    (hk3 : ']' ∉ k) (hT3 : ']' ∉ T) (hD3 : ']' ∉ D) :
    replaceAll matchVizStripAt (p ++ vizTag k T D ++ s) = p ++ s := by
  rw [replaceAll, List.append_assoc p (vizTag k T D) s,
    replaceAllAux_clean_append matchVizStripAt
      (fun c l hc => matchVizStripAt_head_ne hc) p (vizTag k T D ++ s) _ hp]
  have hlen : (p ++ (vizTag k T D ++ s)).length - p.length =
      (vizTag k T D ++ s).length := by simp
  rw [hlen]
  have hne : vizTag k T D ++ s ≠ [] := by simp [vizTag, vizOpen]
  obtain ⟨n, hn⟩ : ∃ n, (vizTag k T D ++ s).length = n + 1 :=
    ⟨(vizTag k T D ++ s).length - 1,
      (Nat.succ_pred_eq_of_pos (List.length_pos.mpr hne)).symm⟩
  rw [hn, replaceAllAux_cons_match matchVizStripAt n hne
    (matchVizStripAt_tag k T D s hk3 hT3 hD3)]
  rw [replaceAllAux_of_no_match matchVizStripAt s n
    (hasTagMatch_eq_false_of_anchor matchVizStripAt matchVizStripAt_nil
      (fun c l hc => matchVizStripAt_head_ne hc) hs)]

theorem cleanResponseText_of_no_match (s : List Char)
    (h1 : hasTagMatch matchVizStripAt s = false)
    (h2 : hasTagMatch matchTableStripAt s = false) :
    cleanResponseText s = trim s := by
  have hviz : replaceAll matchVizStripAt s = s :=
    replaceAllAux_of_no_match _ s _ h1
  have htab : replaceAll matchTableStripAt s = s :=
    replaceAllAux_of_no_match _ s _ h2
  rw [cleanResponseText, hviz, htab]

theorem hasTimestamp_append (p rest : List Char)
    (h : matchTimestampAt rest = true) : hasTimestamp (p ++ rest) = true := by
  induction p with
  | nil =>
    cases rest with
    | nil => exact absurd h (by decide)
    | cons c r => simpa [hasTimestamp] using Or.inl h
  | cons c p' ih =>
    rw [List.cons_append, hasTimestamp, ih, Bool.or_true]

theorem logFloor1024Aux_le : ∀ (fuel m j : Nat), m < 1024 ^ (j + 1) →
    logFloor1024Aux fuel m ≤ j := by
  intro fuel
  induction fuel with
  | zero => intro m j _; exact Nat.zero_le j
  | succ n ih =>
    intro m j h
    rw [logFloor1024Aux]
    by_cases hm : m < 1024
    · simp [hm]
    · rw [if_neg hm]
      cases j with
      | zero => exact absurd (by simpa using h) hm
      | succ j' =>
        have hdiv : m / 1024 < 1024 ^ (j' + 1) := by
          rw [Nat.div_lt_iff_lt_mul (by norm_num : (0 : Nat) < 1024)]
          calc m < 1024 ^ (j' + 1 + 1) := h
            _ = 1024 ^ (j' + 1) * 1024 := by ring
        have := ih (m / 1024) j' hdiv
        omega

theorem tableOfMatch_shape {pd : Option ProcessedFileData}
    {m : List Char} {t : TableData} (h : tableOfMatch pd m = some t) :
    t.headers = (generateTableData pd).1 ∧
    t.rows = (generateTableData pd).2 := by
  simp only [tableOfMatch] at h
  split at h
  · cases h; exact ⟨rfl, rfl⟩
  · cases h

theorem generateTableData_row_shape (pd : Option ProcessedFileData) :
    ((generateTableData pd).2.all
      fun r => r.length = (generateTableData pd).1.length) = true := by
  rcases pd with _ | p
  · decide
  · rcases p with ⟨ty, content, md, prev, st⟩
    cases ty <;> rfl

/-- C2: when the external generation call throws, `processQuery` returns
exactly the fixed fallback response — the apologetic display text with
confidence 0 and no visualization, table or source entries — for every query,
file and history. -/
theorem C2_generation_failure_fallback
    (query : List Char) (file : Option (String × List Char × Nat))
    (history : List (Bool × List Char)) :
    processQuery query file history (Except.error ()) = fallbackResponse ∧
    fallbackResponse.confidence = 0 ∧
    fallbackResponse.visualizations.getD [] = [] ∧
    fallbackResponse.tables.getD [] = [] ∧
    fallbackResponse.sources = [] := by
  refine ⟨?_, rfl, rfl, rfl, rfl⟩
  rcases file with _ | ⟨ft, content, size⟩
  · rfl
  · rcases hpf : processFile ft content size with e | pdata
    · simp [processQuery, hpf, Except.mapError, Except.bind, Bind.bind]
    · simp [processQuery, hpf, Except.mapError, Except.bind, Bind.bind]
      rfl

/-- C10: content with no non-blank lines still processes successfully,
yielding a structure summary with row count -1, no headers and zero
columns. -/
theorem C10_empty_csv (content : List Char) (size : Nat)
    (h : (splitLines content).filter nonBlank = []) :
    csvSummary (processCsvFile content size) =
      some { headers := none, rows := -1, columns := 0, delimiter := ',' } := by
  simp [processCsvFile, csvSummary, h, csvHeaders]

theorem C10_empty_csv_witness :
    ((splitLines "".toList).filter nonBlank = []) ∧
    csvSummary (processCsvFile "".toList 0) =
      some { headers := none, rows := -1, columns := 0, delimiter := ',' } :=
  ⟨by decide, C10_empty_csv "".toList 0 (by decide)⟩

/-- C8 counterexample: at 1024^4 bytes the unit index reaches past the end of
the unit list, so the rendered unit is the out-of-range marker rather than one
of Bytes, KB, MB, GB — the claim's unit-selection statement fails there. -/
theorem C8_counterexample :
    formatFileSize (1024 ^ 4) = "1 undefined" ∧ "undefined" ∉ sizes := by
  refine ⟨by decide, by decide⟩

/-- C8 (amended): for positive byte counts below 1024^4 the rendered string is
a value, a space and a unit drawn from Bytes, KB, MB, GB selected by the floor
of the base-1024 logarithm; 0 renders as "0 Bytes", 1024 as "1 KB" and 1536 as
"1.5 KB". -/
theorem C8_format_file_size (bytes : Nat) (h1 : 0 < bytes)
    (h2 : bytes < 1024 ^ 4) :
    (∃ v : String, formatFileSize bytes =
        v ++ " " ++ sizes.getD (logFloor1024 bytes) "undefined") ∧
    sizes.getD (logFloor1024 bytes) "undefined" ∈ sizes ∧
    formatFileSize 0 = "0 Bytes" ∧
    formatFileSize 1024 = "1 KB" ∧
    formatFileSize 1536 = "1.5 KB" := by
  refine ⟨⟨renderValue (value100 bytes (logFloor1024 bytes)), ?_⟩, ?_,
    by decide, by decide, by decide⟩
  · rw [formatFileSize, if_neg (Nat.pos_iff_ne_zero.mp h1)]
  · have hle : logFloor1024 bytes ≤ 3 := logFloor1024Aux_le bytes bytes 3 h2
    have hall : ∀ i ≤ 3, sizes.getD i "undefined" ∈ sizes := by decide
    exact hall _ hle

theorem C8_format_file_size_witness :
    0 < 1536 ∧ 1536 < 1024 ^ 4 ∧
    ((∃ v : String, formatFileSize 1536 =
        v ++ " " ++ sizes.getD (logFloor1024 1536) "undefined") ∧
     sizes.getD (logFloor1024 1536) "undefined" ∈ sizes ∧
     formatFileSize 0 = "0 Bytes" ∧
     formatFileSize 1024 = "1 KB" ∧
     formatFileSize 1536 = "1.5 KB") :=
  ⟨by decide, by decide, C8_format_file_size 1536 (by decide) (by decide)⟩

/-- C6 counterexample: a bare date with no following time does not match the
timestamp pattern, so hasTimestamps stays false — the claim's "bare
YYYY-MM-DD" case fails on the code. -/
theorem C6_counterexample :
    (logSummary (processLogFile "2024-01-15".toList 10)).map
      LogStructure.hasTimestamps = some false := by decide

/-- C6 (amended): hasTimestamps is set whenever the content contains a full
date-time occurrence — a YYYY-MM-DD date followed by a whitespace character or
a literal T and an hh:mm:ss time (a bare date alone does not match); and for
content containing "2024-01-15 10:30:00 ERROR 192.168.1.1 failed" all three
detection booleans are true. -/
theorem C6_log_signals (p rest : List Char) (size : Nat)
    (h : matchTimestampAt rest = true) :
    (logSummary (processLogFile (p ++ rest) size)).map
      LogStructure.hasTimestamps = some true ∧
    logSummary (processLogFile
        "2024-01-15 10:30:00 ERROR 192.168.1.1 failed".toList 0) =
      some { hasTimestamps := true, hasLogLevels := true,
             hasIpAddresses := true, totalLines := 1 } := by
  refine ⟨?_, by decide⟩
  simp [processLogFile, logSummary, hasTimestamp_append p rest h]

theorem C6_log_signals_witness :
    matchTimestampAt "2024-01-15T10:30:00 tail".toList = true ∧
    ((logSummary (processLogFile
        ("log: ".toList ++ "2024-01-15T10:30:00 tail".toList) 7)).map
      LogStructure.hasTimestamps = some true ∧
     logSummary (processLogFile
        "2024-01-15 10:30:00 ERROR 192.168.1.1 failed".toList 0) =
      some { hasTimestamps := true, hasLogLevels := true,
             hasIpAddresses := true, totalLines := 1 }) :=
  ⟨by decide, C6_log_signals "log: ".toList "2024-01-15T10:30:00 tail".toList
    7 (by decide)⟩

/-- C7 counterexample: the header transformation removes every double-quote
character of a cell, not only surrounding ones — a cell with an interior quote
loses it. -/
theorem C7_counterexample :
    csvSummary (processCsvFile "he\"llo,b\n1,2".toList 12) =
      some { headers := some ["hello".toList, "b".toList], rows := 1,
             columns := 2, delimiter := ',' } ∧
    "hello".toList ≠ "he\"llo".toList := by
  refine ⟨by decide, by decide⟩

/-- C7 (amended): the first retained line is the header row — each cell is
produced by splitting on commas, trimming, and removing every double-quote
character (not only surrounding ones); the row count is the retained line
count minus one and the column count is the number of headers; the concrete
example "a,b,c\n1,2,3\n4,5,6" yields headers a, b, c with 2 rows and 3
columns. -/
theorem C7_csv_ingestion (content l0 : List Char)
    (rest : List (List Char)) (size : Nat)
    (h : (splitLines content).filter nonBlank = l0 :: rest) :
    csvSummary (processCsvFile content size) =
      some { headers := some ((splitOnChar ',' l0).map
               fun c => (trim c).filter (fun x => x ≠ '"'))
             rows := (rest.length : Int)
             columns := ((splitOnChar ',' l0).map
               fun c => (trim c).filter (fun x => x ≠ '"')).length
             delimiter := ',' } ∧
    csvSummary (processCsvFile "a,b,c\n1,2,3\n4,5,6".toList 17) =
      some { headers := some ["a".toList, "b".toList, "c".toList]
             rows := 2, columns := 3, delimiter := ',' } := by
  refine ⟨?_, by decide⟩
  simp [processCsvFile, csvSummary, h, csvHeaders]

theorem C7_csv_ingestion_witness :
    (splitLines "a,b,c\n1,2,3\n4,5,6".toList).filter nonBlank =
      "a,b,c".toList :: ["1,2,3".toList, "4,5,6".toList] ∧
    (csvSummary (processCsvFile "a,b,c\n1,2,3\n4,5,6".toList 17) =
      some { headers := some ((splitOnChar ',' "a,b,c".toList).map
               fun c => (trim c).filter (fun x => x ≠ '"'))
             rows := ((["1,2,3".toList, "4,5,6".toList] : List (List Char)
               ).length : Int)
             columns := ((splitOnChar ',' "a,b,c".toList).map
               fun c => (trim c).filter (fun x => x ≠ '"')).length
             delimiter := ',' } ∧
     csvSummary (processCsvFile "a,b,c\n1,2,3\n4,5,6".toList 17) =
      some { headers := some ["a".toList, "b".toList, "c".toList]
             rows := 2, columns := 3, delimiter := ',' }) :=
  ⟨by decide, C7_csv_ingestion "a,b,c\n1,2,3\n4,5,6".toList "a,b,c".toList
    ["1,2,3".toList, "4,5,6".toList] 17 (by decide)⟩

/-- C5: with a table-kind file, the line chart gets the two fixed 6-point
monthly series Sales and Profit, the pie chart the single fixed 4-slice
Revenue Share series summing to 100, the area chart the two fixed 4-quarter
series Revenue and Costs, and every other chart-kind string, including
unrecognized ones, the fixed 5-category regional Sales series of the
bar/default branch. -/
theorem C5_csv_chart_fixtures (pd : ProcessedFileData) (ct : List Char)
    (hpd : pd.type = FileType.csv)
    (h1 : ct ≠ "line".toList) (h2 : ct ≠ "pie".toList)
    (h3 : ct ≠ "area".toList) :
    generateVisualizationData "line".toList (some pd) = csvLineData ∧
    csvLineData.datasets.map Dataset.label = ["Sales", "Profit"] ∧
    csvLineData.labels.length = 6 ∧
    (csvLineData.datasets.all fun ds => ds.data.length = 6) = true ∧
    generateVisualizationData "pie".toList (some pd) = csvPieData ∧
    csvPieData.datasets.map Dataset.label = ["Revenue Share"] ∧
    csvPieData.labels.length = 4 ∧
    csvPieData.datasets.map (fun ds => ds.data.sum) = [100] ∧
    generateVisualizationData "area".toList (some pd) = csvAreaData ∧
    csvAreaData.labels = ["Q1", "Q2", "Q3", "Q4"] ∧
    csvAreaData.datasets.map Dataset.label = ["Revenue", "Costs"] ∧
    generateVisualizationData ct (some pd) = csvBarData ∧
    csvBarData.labels.length = 5 ∧
    csvBarData.datasets.map Dataset.label = ["Sales"] := by
  refine ⟨?_, by decide, by decide, by decide, ?_, by decide, by decide,
    by decide, ?_, by decide, by decide, ?_, by decide, by decide⟩
  · simp [generateVisualizationData, hpd, generateCSVVisualizationData]
  · simp [generateVisualizationData, hpd, generateCSVVisualizationData]
  · simp [generateVisualizationData, hpd, generateCSVVisualizationData]
  · have h1' : ct ≠ ['l', 'i', 'n', 'e'] := h1
    have h2' : ct ≠ ['p', 'i', 'e'] := h2
    have h3' : ct ≠ ['a', 'r', 'e', 'a'] := h3
    simp [generateVisualizationData, hpd, generateCSVVisualizationData,
      h1', h2', h3']

theorem C5_csv_chart_fixtures_witness :
    ((processCsvFile "a,b\n1,2".toList 8).type = FileType.csv ∧
     "scatter".toList ≠ "line".toList ∧
     "scatter".toList ≠ "pie".toList ∧
     "scatter".toList ≠ "area".toList) ∧
    (generateVisualizationData "line".toList
        (some (processCsvFile "a,b\n1,2".toList 8)) = csvLineData ∧
     csvLineData.datasets.map Dataset.label = ["Sales", "Profit"] ∧
     csvLineData.labels.length = 6 ∧
     (csvLineData.datasets.all fun ds => ds.data.length = 6) = true ∧
     generateVisualizationData "pie".toList
        (some (processCsvFile "a,b\n1,2".toList 8)) = csvPieData ∧
     csvPieData.datasets.map Dataset.label = ["Revenue Share"] ∧
     csvPieData.labels.length = 4 ∧
     csvPieData.datasets.map (fun ds => ds.data.sum) = [100] ∧
     generateVisualizationData "area".toList
        (some (processCsvFile "a,b\n1,2".toList 8)) = csvAreaData ∧
     csvAreaData.labels = ["Q1", "Q2", "Q3", "Q4"] ∧
     csvAreaData.datasets.map Dataset.label = ["Revenue", "Costs"] ∧
     generateVisualizationData "scatter".toList
        (some (processCsvFile "a,b\n1,2".toList 8)) = csvBarData ∧
     csvBarData.labels.length = 5 ∧
     csvBarData.datasets.map Dataset.label = ["Sales"]) :=
  ⟨⟨by decide, by decide, by decide, by decide⟩,
    C5_csv_chart_fixtures (processCsvFile "a,b\n1,2".toList 8)
      "scatter".toList (by decide) (by decide) (by decide) (by decide)⟩

/-- C9: every synthesized table fixture has uniformly shaped rows — for every
file kind (including no file) each fixture row has exactly as many cells as
there are headers — and hence every table of every parsed response satisfies
the row-shape invariant. -/
theorem C9_table_row_shape (text : List Char) (pd : Option ProcessedFileData) :
    ((generateTableData pd).2.all
        fun r => r.length = (generateTableData pd).1.length) = true ∧
    (((parseAIResponse text pd).tables.getD []).all
        fun t => t.rows.all fun r => r.length = t.headers.length) = true := by
  refine ⟨generateTableData_row_shape pd, ?_⟩
  have hshape := generateTableData_row_shape pd
  simp only [parseAIResponse, Option.getD_some]
  generalize scanAll matchTableAt text = ms
  induction ms with
  | nil => rfl
  | cons m ms ih =>
    rw [List.filterMap_cons]
    cases hm : tableOfMatch pd m with
    | none => simpa using ih
    | some t =>
      have ht := tableOfMatch_shape hm
      simp only [List.all_cons, ih, Bool.and_true]
      rw [ht.1, ht.2]
      exact hshape

/-- C1 counterexample: the bracket-balanced malformed tag with only two fields
produces no specification, yet it is removed from the displayed text rather
than left verbatim, because the strip pattern is broader than the extraction
pattern. -/
theorem C1_counterexample :
    (parseAIResponse "[VIZ:a:b]".toList none).visualizations.getD [] = [] ∧
    (parseAIResponse "[VIZ:a:b]".toList none).tables.getD [] = [] ∧
    ¬ ∃ a b : List Char,
      (parseAIResponse "[VIZ:a:b]".toList none).content =
        a ++ "[VIZ:a:b]".toList ++ b := by
  refine ⟨by decide, by decide, ?_⟩
  rintro ⟨a, b, hab⟩
  rw [show (parseAIResponse "[VIZ:a:b]".toList none).content = [] from
    by decide] at hab
  have hlen := congrArg List.length hab
  have h9 : ("[VIZ:a:b]".toList).length = 9 := by decide
  simp [List.length_append, h9] at hlen
  omega

/-- C1 (amended): a malformed directive tag never matches the extraction
pattern, so it produces no visualization or table specification; a tag with
unbalanced brackets (text containing no closing bracket at all) is left in the
displayed text verbatim up to trimming, while a bracket-balanced tag with
missing fields such as the two-field one still matches the broader strip
pattern and is removed from the displayed text. -/
theorem C1_malformed_tags (text : List Char)
    (pd : Option ProcessedFileData) (h : ']' ∉ text) :
    (parseAIResponse text pd).visualizations.getD [] = [] ∧
    (parseAIResponse text pd).tables.getD [] = [] ∧
    (parseAIResponse text pd).content = trim text ∧
    (parseAIResponse "[VIZ:a:b]".toList none).visualizations.getD [] = [] ∧
    (parseAIResponse "[VIZ:a:b]".toList none).tables.getD [] = [] ∧
    (parseAIResponse "[VIZ:a:b]".toList none).content = [] := by
  have hviz : scanAll matchVizAt text = [] :=
    scanAllAux_of_no_match _ text _
      (hasTagMatch_eq_false_of_no_rb matchVizAt
        matchVizAt_eq_none_of_no_rb h)
  have htab : scanAll matchTableAt text = [] :=
    scanAllAux_of_no_match _ text _
      (hasTagMatch_eq_false_of_no_rb matchTableAt
        matchTableAt_eq_none_of_no_rb h)
  have hstrip1 : replaceAll matchVizStripAt text = text :=
    replaceAllAux_of_no_match _ text _
      (hasTagMatch_eq_false_of_no_rb matchVizStripAt
        matchVizStripAt_eq_none_of_no_rb h)
  have hstrip2 : replaceAll matchTableStripAt text = text :=
    replaceAllAux_of_no_match _ text _
      (hasTagMatch_eq_false_of_no_rb matchTableStripAt
        matchTableStripAt_eq_none_of_no_rb h)
  refine ⟨?_, ?_, ?_, by decide, by decide, by decide⟩
  · simp [parseAIResponse, hviz]
  · simp [parseAIResponse, htab]
  · simp [parseAIResponse, cleanResponseText, hstrip1, hstrip2]

theorem C1_malformed_tags_witness :
    (']' ∉ "see [VIZ:a:b and [TABLE:x incomplete".toList) ∧
    ((parseAIResponse "see [VIZ:a:b and [TABLE:x incomplete".toList
        none).visualizations.getD [] = [] ∧
     (parseAIResponse "see [VIZ:a:b and [TABLE:x incomplete".toList
        none).tables.getD [] = [] ∧
     (parseAIResponse "see [VIZ:a:b and [TABLE:x incomplete".toList
        none).content = trim "see [VIZ:a:b and [TABLE:x incomplete".toList ∧
     (parseAIResponse "[VIZ:a:b]".toList none).visualizations.getD [] = [] ∧
     (parseAIResponse "[VIZ:a:b]".toList none).tables.getD [] = [] ∧
     (parseAIResponse "[VIZ:a:b]".toList none).content = []) :=
  ⟨by decide, C1_malformed_tags
    "see [VIZ:a:b and [TABLE:x incomplete".toList none (by decide)⟩

/-- C4 counterexample: stripping is not idempotent — removing an inner
bracketed span can splice the surrounding text into a new strip-pattern match,
so a second pass removes more. -/
theorem C4_counterexample :
    cleanResponseText (cleanResponseText "[VIZ[VIZ:a]:a]".toList) ≠
      cleanResponseText "[VIZ[VIZ:a]:a]".toList := by decide

/-- C4 (amended): the strip-and-trim step is idempotent on every input whose
once-stripped text contains no residual match of either strip pattern; in
general a second application can remove more, because deleting a matched span
can join the surrounding characters into a new match. -/
theorem C4_strip_idem (s : List Char)
    (h1 : hasTagMatch matchVizStripAt (cleanResponseText s) = false)
    (h2 : hasTagMatch matchTableStripAt (cleanResponseText s) = false) :
    cleanResponseText (cleanResponseText s) = cleanResponseText s := by
  rw [cleanResponseText_of_no_match _ h1 h2]
  exact trim_idem (replaceAll matchTableStripAt (replaceAll matchVizStripAt s))

theorem C4_strip_idem_witness :
    hasTagMatch matchVizStripAt
      (cleanResponseText "hello [VIZ:bar:T:D] world".toList) = false ∧
    hasTagMatch matchTableStripAt
      (cleanResponseText "hello [VIZ:bar:T:D] world".toList) = false ∧
    cleanResponseText (cleanResponseText "hello [VIZ:bar:T:D] world".toList) =
      cleanResponseText "hello [VIZ:bar:T:D] world".toList :=
  ⟨by decide, by decide,
    C4_strip_idem "hello [VIZ:bar:T:D] world".toList (by decide) (by decide)⟩

/-- C3 counterexample: a text containing the well-formed tag inside an
enclosing scan match yields a single specification whose fields are taken from
the enclosing match, not the inner well-formed tag — no specification with
chart kind bar, title T, description D is extracted. -/
theorem C3_counterexample :
    ((parseAIResponse "[VIZ:x:[VIZ:bar:T:D]".toList
        none).visualizations.getD []).map
      (fun v => (v.chartType, v.title, v.description)) =
      [("x".toList, "[VIZ".toList, "bar".toList)] ∧
    ¬ ("bar".toList, "T".toList, "D".toList) ∈
      ((parseAIResponse "[VIZ:x:[VIZ:bar:T:D]".toList
          none).visualizations.getD []).map
        (fun v => (v.chartType, v.title, v.description)) := by
  refine ⟨by decide, by decide⟩

/-- C3 (amended): when the well-formed tag with chart kind bar and non-empty
colon-free, bracket-free title and description occurs in a context whose
prefix and suffix contain no opening bracket, the pipeline extracts exactly
one specification with chart kind bar, title T, description D, the displayed
text is the trimmed concatenation of prefix and suffix, and the tag substring
does not occur in the displayed text. -/
theorem C3_viz_extraction (p s T D : List Char)
    (pd : Option ProcessedFileData)
    (hp : ∀ c ∈ p, c ≠ '[') (hs : ∀ c ∈ s, c ≠ '[')
    (hT1 : T ≠ []) (hT2 : ':' ∉ T) (hT3 : ']' ∉ T)
    (hD1 : D ≠ []) (hD2 : ':' ∉ D) (hD3 : ']' ∉ D) :
    ((parseAIResponse (p ++ vizTag "bar".toList T D ++ s)
        pd).visualizations.getD []).map
      (fun v => (v.chartType, v.title, v.description)) =
      [("bar".toList, T, D)] ∧
    (parseAIResponse (p ++ vizTag "bar".toList T D ++ s) pd).content =
      trim (p ++ s) ∧
    ¬ ∃ a b : List Char,
      (parseAIResponse (p ++ vizTag "bar".toList T D ++ s) pd).content =
        a ++ vizTag "bar".toList T D ++ b := by
  have hscan := scanAll_viz_single p s "bar".toList T D hp hs (by decide)
    (by decide) hT1 hT2 hD1 hD3
  have hvom := vizOfMatch_tag pd "bar".toList T D (by decide) hT2 hD2
  have hps : ∀ c ∈ p ++ s, c ≠ '[' := by
    intro c hc
    rcases List.mem_append.mp hc with hcp | hcs
    · exact hp c hcp
    · exact hs c hcs
  have hrepviz := replaceAll_vizStrip_single p s "bar".toList T D hp hs
    (by decide) hT3 hD3
  have hreptab : replaceAll matchTableStripAt (p ++ s) = p ++ s :=
    replaceAllAux_of_no_match _ _ _
      (hasTagMatch_eq_false_of_anchor matchTableStripAt matchTableStripAt_nil
        (fun c l hc => matchTableStripAt_head_ne hc) hps)
  have hcontent : (parseAIResponse (p ++ vizTag "bar".toList T D ++ s)
      pd).content = trim (p ++ s) := by
    simp only [parseAIResponse]
    rw [cleanResponseText, hrepviz, hreptab]
  refine ⟨?_, hcontent, ?_⟩
  · simp only [parseAIResponse, Option.getD_some]
    rw [hscan, List.filterMap_cons, hvom]
    simp
  · rintro ⟨a, b, hab⟩
    rw [hcontent] at hab
    have hopen : '[' ∈ vizTag "bar".toList T D := by
      simp [vizTag, vizOpen]
    have hbr : '[' ∈ trim (p ++ s) := by
      rw [hab]
      exact List.mem_append_left b (List.mem_append_right a hopen)
    exact (hps '[' (mem_of_mem_trim hbr)) rfl

theorem C3_viz_extraction_witness :
    ((∀ c ∈ "Here: ".toList, c ≠ '[') ∧ (∀ c ∈ " done".toList, c ≠ '[') ∧
     "T".toList ≠ ([] : List Char) ∧ ':' ∉ "T".toList ∧ ']' ∉ "T".toList ∧
     "D".toList ≠ ([] : List Char) ∧ ':' ∉ "D".toList ∧ ']' ∉ "D".toList) ∧
    (((parseAIResponse ("Here: ".toList ++
          vizTag "bar".toList "T".toList "D".toList ++ " done".toList)
        none).visualizations.getD []).map
      (fun v => (v.chartType, v.title, v.description)) =
      [("bar".toList, "T".toList, "D".toList)] ∧
     (parseAIResponse ("Here: ".toList ++
          vizTag "bar".toList "T".toList "D".toList ++ " done".toList)
        none).content = trim ("Here: ".toList ++ " done".toList) ∧
     ¬ ∃ a b : List Char,
       (parseAIResponse ("Here: ".toList ++
            vizTag "bar".toList "T".toList "D".toList ++ " done".toList)
          none).content =
         a ++ vizTag "bar".toList "T".toList "D".toList ++ b) :=
  ⟨⟨by decide, by decide, by decide, by decide, by decide, by decide,
      by decide, by decide⟩,
    C3_viz_extraction "Here: ".toList " done".toList "T".toList "D".toList
      none (by decide) (by decide) (by decide) (by decide) (by decide)
      (by decide) (by decide) (by decide)⟩
